import Mathlib

set_option autoImplicit false

/-!
Verification development for the layered-cache orchestrator: a shallow
embedding of the two-tier (memory/remote) cache control flow, its TTL and
absence-caching policy resolution, the batch coalescing key construction,
and the typed key-building facade, together with theorems settling the
stated behavioural properties.

Stores are modelled as association lists of entries (key, bytes, ttl);
a write conses a fresh entry and a read finds the most recent one.  The
remote store additionally carries a failure flag so that write failures
of the network tier can be expressed.  Byte sequences are modelled as
strings; Go time.Duration values are modelled as integers.
-/

namespace LayeredCache

/-- Byte sequences ([]byte values) are modelled as strings. -/
abbrev Bytes := String

/-- The reserved absence marker `__CACHE_NOT_FOUND__` (notFoundPlaceholder). -/
def notFoundPlaceholder : Bytes := "__CACHE_NOT_FOUND__"

/-- Error taxonomy of the errors package, as referenced by the orchestrator. -/
inductive Err where
  | notFound
  | adapterRequired
  | invalidMemoryExpireTime
  | invalidRedisExpireTime
  | invalidCacheNotFondTTL
  | invalidMGetTarget
  | serializeFailed
  | remoteFailure
deriving DecidableEq, Repr

/-- IsNotFound: the error equals the ErrNotFound sentinel. -/
def IsNotFound (e : Err) : Bool := e == Err.notFound

/-- External serializer collaborator: marshal/unmarshal over a payload type. -/
structure GoSerializer (α : Type) where
  marshal : α → Except Err Bytes
  unmarshal : Bytes → Except Err α

/-- A dynamically-typed cache value: raw bytes, a raw string, or a
serializer-handled object (the `any` values seen by Marshal/Unmarshal). -/
inductive GoValue (α : Type) where
  | bytes (b : Bytes)
  | str (s : String)
  | obj (a : α)
deriving DecidableEq, Repr

/-- Entries of an in-process (memory) store: key, data and the TTL it was
written with, most recent first. -/
abbrev MemEntries := List (String × Bytes × Int)

/-- Memory store lookup (Otter Get): first entry for the key, if any. -/
def memGet (m : MemEntries) (key : String) : Option Bytes :=
  (m.find? (fun e => e.1 == key)).map (fun e => e.2.1)

/-- Memory store write (Otter Set): record the entry with its TTL. -/
def memSet (m : MemEntries) (key : String) (data : Bytes) (ttl : Int) : MemEntries :=
  (key, data, ttl) :: m

/-- Memory store batch write (Otter MSet). -/
def memMSet (m : MemEntries) (kvs : List (String × Bytes)) (ttl : Int) : MemEntries :=
  kvs.foldl (fun acc kv => memSet acc kv.1 kv.2 ttl) m

/-- Memory store batch read (Otter MGet): map of the keys that are present. -/
def memMGet (m : MemEntries) (keys : List String) : List (String × Bytes) :=
  keys.filterMap (fun k => (memGet m k).map (fun d => (k, d)))

/-- Memory store delete (Otter Delete). -/
def memDelete (m : MemEntries) (key : String) : MemEntries :=
  m.filter (fun e => e.1 != key)

/-- Lookup in an association list returned by a batch read. -/
def alookup {β : Type} (l : List (String × β)) (key : String) : Option β :=
  (l.find? (fun e => e.1 == key)).map (fun e => e.2)

/-- Remote (network) store state: entries plus a flag making writes fail,
so that network-tier write failures are expressible. -/
structure RemoteState where
  entries : MemEntries
  setFail : Bool
deriving DecidableEq, Repr

/-- Remote Get: a miss surfaces as the distinguished not-found error. -/
def remoteGet (r : RemoteState) (key : String) : Except Err Bytes :=
  match memGet r.entries key with
  | some d => .ok d
  | none => .error .notFound

/-- Remote Set: fails with an I/O error when the failure flag is set. -/
def remoteSet (r : RemoteState) (key : String) (data : Bytes) (ttl : Int) :
    Except Err RemoteState :=
  if r.setFail then .error .remoteFailure
  else .ok { r with entries := memSet r.entries key data ttl }

/-- Remote MSet: batched write, failing like remoteSet. -/
def remoteMSet (r : RemoteState) (kvs : List (String × Bytes)) (ttl : Int) :
    Except Err RemoteState :=
  if r.setFail then .error .remoteFailure
  else .ok { r with entries := memMSet r.entries kvs ttl }

/-- Remote MGet: map of the keys that are present (absent keys omitted). -/
def remoteMGet (r : RemoteState) (keys : List String) :
    Except Err (List (String × Bytes)) :=
  .ok (memMGet r.entries keys)

/-- LayeredCache immutable configuration: serializer and construction-time
defaults (memory TTL, remote TTL, absence-caching flag and TTL). -/
structure CacheCfg (α : Type) where
  ser : GoSerializer α
  defaultMemoryTTL : Int
  defaultRemoteTTL : Int
  defaultCacheNotFound : Bool
  defaultCacheNotFoundTTL : Int

/-- LayeredCache mutable state: the optional memory tier and the optional
remote tier (a `none` tier mirrors a nil adapter). -/
structure CacheState where
  memory : Option MemEntries
  remote : Option RemoteState
deriving DecidableEq, Repr

/-- Per-call Set options (setOptions): optional TTL overrides. -/
structure SetOpts where
  memoryTTL : Option Int
  remoteTTL : Option Int

/-- newSetOptions: the default (empty) Set option record. -/
def newSetOptions : SetOpts := ⟨none, none⟩

/-- Per-call Get options (getOptions): loaders and optional overrides.
Loaders are modelled as pure functions of the key(s); a loader result of
`ok none` is a nil value, mirroring `any` being nil in Go. -/
structure GetOpts (α : Type) where
  loader : Option (String → Except Err (Option (GoValue α)))
  batchLoader : Option (List String → Except Err (List (String × Option (GoValue α))))
  memoryTTL : Option Int
  remoteTTL : Option Int
  cacheNotFound : Option Bool
  cacheNotFoundTTL : Option Int

/-- newGetOptions: the default (empty) Get option record. -/
def newGetOptions {α : Type} : GetOpts α := ⟨none, none, none, none, none, none⟩

/-- An optional duration override that is present and non-positive. -/
def nonPos (o : Option Int) : Bool :=
  match o with
  | some t => decide (t ≤ 0)
  | none => false

/-- validMemoryTTL. -/
def validMemoryTTL (memoryTTL : Int) : Except Err Unit :=
  if memoryTTL ≤ 0 then .error .invalidMemoryExpireTime else .ok ()

/-- validRemoteTTL. -/
def validRemoteTTL (remoteTTL : Int) : Except Err Unit :=
  if remoteTTL ≤ 0 then .error .invalidRedisExpireTime else .ok ()

/-- validCacheMissTTL. -/
def validCacheMissTTL (cacheMissTTL : Int) : Except Err Unit :=
  if cacheMissTTL ≤ 0 then .error .invalidCacheNotFondTTL else .ok ()

/-- validateGetOptions: each override that is present must be positive. -/
def validateGetOptions {α : Type} (cfg : GetOpts α) : Except Err Unit :=
  if nonPos cfg.memoryTTL then .error .invalidMemoryExpireTime
  else if nonPos cfg.remoteTTL then .error .invalidRedisExpireTime
  else if nonPos cfg.cacheNotFoundTTL then .error .invalidCacheNotFondTTL
  else .ok ()

/-- validateSetOptions: each override that is present must be positive. -/
def validateSetOptions (cfg : SetOpts) : Except Err Unit :=
  if nonPos cfg.memoryTTL then .error .invalidMemoryExpireTime
  else if nonPos cfg.remoteTTL then .error .invalidRedisExpireTime
  else .ok ()

/-- Construction-time option record as assembled by applyOptions: which
adapters were supplied, plus the defaults. -/
structure Options where
  hasMemoryAdapter : Bool
  hasRemoteAdapter : Bool
  defaultMemoryTTL : Int
  defaultRemoteTTL : Int
  defaultCacheNotFound : Bool
  defaultCacheNotFoundTTL : Int

/-- validateOptions, run by NewCache before an instance is produced. -/
def validateOptions (cfg : Options) : Except Err Unit :=
  if !cfg.hasMemoryAdapter && !cfg.hasRemoteAdapter then .error .adapterRequired
  else
    match (if cfg.hasMemoryAdapter then validMemoryTTL cfg.defaultMemoryTTL else .ok ()) with
    | .error e => .error e
    | .ok _ =>
      match (if cfg.hasRemoteAdapter then validRemoteTTL cfg.defaultRemoteTTL else .ok ()) with
      | .error e => .error e
      | .ok _ =>
        if cfg.defaultCacheNotFound then validCacheMissTTL cfg.defaultCacheNotFoundTTL
        else .ok ()

/-- calculateLoaderTTL: on an absence both tiers collapse to the resolved
absence TTL; otherwise each override wins over its default. -/
def calculateLoaderTTL {α : Type} (c : CacheCfg α) (config : GetOpts α)
    (isNotFound : Bool) : Int × Int :=
  if isNotFound then
    let t := config.cacheNotFoundTTL.getD c.defaultCacheNotFoundTTL
    (t, t)
  else
    (config.memoryTTL.getD c.defaultMemoryTTL, config.remoteTTL.getD c.defaultRemoteTTL)

/-- calculateSetTTL: per-call override wins over the default, per tier. -/
def calculateSetTTL {α : Type} (c : CacheCfg α) (config : SetOpts) : Int × Int :=
  (config.memoryTTL.getD c.defaultMemoryTTL, config.remoteTTL.getD c.defaultRemoteTTL)

/-- shouldCacheNotFound: per-call override wins over the default. -/
def shouldCacheNotFound {α : Type} (c : CacheCfg α) (optCacheNotFound : Option Bool) : Bool :=
  optCacheNotFound.getD c.defaultCacheNotFound

/-- Marshal: raw bytes and raw strings bypass the serializer. -/
def Marshal {α : Type} (c : CacheCfg α) (val : GoValue α) : Except Err Bytes :=
  match val with
  | .bytes b => .ok b
  | .str s => .ok s
  | .obj a => c.ser.marshal a

/-- Unmarshal: empty input succeeds leaving the target untouched; byte and
string targets take the raw bytes; object targets go through the
serializer.  Returns the new target value. -/
def Unmarshal {α : Type} (c : CacheCfg α) (b : Bytes) (val : GoValue α) :
    Except Err (GoValue α) :=
  if b.length = 0 then .ok val
  else
    match val with
    | .bytes _ => .ok (.bytes b)
    | .str _ => .ok (.str b)
    | .obj _ => (c.ser.unmarshal b).map .obj

/-- Set: validate options, marshal, write memory first, then remote; a
remote write error is returned with the memory write left in place. -/
def Set {α : Type} (c : CacheCfg α) (st : CacheState) (key : String)
    (value : GoValue α) (opts : SetOpts) : CacheState × Except Err Unit :=
  match validateSetOptions opts with
  | .error e => (st, .error e)
  | .ok _ =>
    match Marshal c value with
    | .error e => (st, .error e)
    | .ok data =>
      let ttls := calculateSetTTL c opts
      let st1 : CacheState :=
        { st with memory := st.memory.map (fun m => memSet m key data ttls.1) }
      match st1.remote with
      | none => (st1, .ok ())
      | some r =>
        match remoteSet r key data ttls.2 with
        | .error e => (st1, .error e)
        | .ok r2 => ({ st1 with remote := some r2 }, .ok ())

/-- Unmarshal a fetched value into the target, pairing the current state
with the outcome (shared tail of the Get branches). -/
def applyUnmarshal {α : Type} (c : CacheCfg α) (st : CacheState) (data : Bytes)
    (target : GoValue α) : CacheState × GoValue α × Except Err Unit :=
  match Unmarshal c data target with
  | .error e => (st, target, .error e)
  | .ok t2 => (st, t2, .ok ())

/-- Shared core of loadAndCache after the loader has been classified:
decide absence persistence, marshal, write memory then remote, and
report not-found for absences. -/
def loadAndCacheCore {α : Type} (c : CacheCfg α) (st : CacheState) (key : String)
    (config : GetOpts α) (value : GoValue α) (isNotFound : Bool) :
    CacheState × Except Err Bytes :=
  let cacheNotFound := shouldCacheNotFound c config.cacheNotFound
  if isNotFound && !cacheNotFound then (st, .error .notFound)
  else
    match Marshal c value with
    | .error e => (st, .error e)
    | .ok data =>
      let ttls := calculateLoaderTTL c config (isNotFound && cacheNotFound)
      let st1 : CacheState :=
        { st with memory := st.memory.map (fun m => memSet m key data ttls.1) }
      match st1.remote with
      | none => if isNotFound then (st1, .error .notFound) else (st1, .ok data)
      | some r =>
        match remoteSet r key data ttls.2 with
        | .error e => (st1, .error e)
        | .ok r2 =>
          let st2 : CacheState := { st1 with remote := some r2 }
          if isNotFound then (st2, .error .notFound) else (st2, .ok data)

/-- loadAndCache: invoke the loader; a non-not-found error aborts; a
not-found error or nil value becomes the absence marker. -/
def loadAndCache {α : Type} (c : CacheCfg α) (st : CacheState) (key : String)
    (config : GetOpts α) (ldr : String → Except Err (Option (GoValue α))) :
    CacheState × Except Err Bytes :=
  match ldr key with
  | .error e =>
    if IsNotFound e then loadAndCacheCore c st key config (.bytes notFoundPlaceholder) true
    else (st, .error e)
  | .ok none => loadAndCacheCore c st key config (.bytes notFoundPlaceholder) true
  | .ok (some v) => loadAndCacheCore c st key config v false

/-- Loader phase of Get: without a loader the miss is final; otherwise run
the (coalesced) load and decode its bytes. -/
def getLoaderPhase {α : Type} (c : CacheCfg α) (st : CacheState) (key : String)
    (target : GoValue α) (config : GetOpts α) :
    CacheState × GoValue α × Except Err Unit :=
  match config.loader with
  | none => (st, target, .error .notFound)
  | some ldr =>
    let res := loadAndCache c st key config ldr
    match res.2 with
    | .error e => (res.1, target, .error e)
    | .ok data => applyUnmarshal c res.1 data target

/-- Remote phase of Get: an absence-marker hit is a final not-found with
no write-back; a plain hit is written back into the memory tier at the
resolved memory TTL and decoded; a miss falls through to the loader. -/
def getRemotePhase {α : Type} (c : CacheCfg α) (st : CacheState) (key : String)
    (target : GoValue α) (config : GetOpts α) :
    CacheState × GoValue α × Except Err Unit :=
  match st.remote with
  | none => getLoaderPhase c st key target config
  | some r =>
    match remoteGet r key with
    | .ok data =>
      if data == notFoundPlaceholder then (st, target, .error .notFound)
      else
        let st1 : CacheState :=
          { st with memory :=
              st.memory.map (fun m => memSet m key data (calculateLoaderTTL c config false).1) }
        applyUnmarshal c st1 data target
    | .error e =>
      if IsNotFound e then getLoaderPhase c st key target config
      else (st, target, .error e)

/-- Get: validate options, try the memory tier, then the remote tier, then
the loader.  Returns the new state, the (possibly updated) target and the
outcome. -/
def Get {α : Type} (c : CacheCfg α) (st : CacheState) (key : String)
    (target : GoValue α) (opts : GetOpts α) :
    CacheState × GoValue α × Except Err Unit :=
  match validateGetOptions opts with
  | .error e => (st, target, .error e)
  | .ok _ =>
    match st.memory with
    | some m =>
      match memGet m key with
      | some data =>
        if data == notFoundPlaceholder then (st, target, .error .notFound)
        else applyUnmarshal c st data target
      | none => getRemotePhase c st key target opts
    | none => getRemotePhase c st key target opts

/-- Delete: remove from the memory tier, then from the remote tier. -/
def Delete {α : Type} (_c : CacheCfg α) (st : CacheState) (key : String) :
    CacheState × Except Err Unit :=
  let st1 : CacheState := { st with memory := st.memory.map (fun m => memDelete m key) }
  match st1.remote with
  | none => (st1, .ok ())
  | some r =>
    if r.setFail then (st1, .error .remoteFailure)
    else ({ st1 with remote := some { r with entries := memDelete r.entries key } }, .ok ())

/-- The dynamically-typed MGet target: nil, a non-pointer, a pointer to a
non-map, a pointer to a map with non-string keys, or a valid pointer to a
string-keyed map.  A valid target carries a zero value of its element
type (driving Unmarshal's type switch) and the map contents. -/
inductive MGetTarget (α : Type) where
  | nilTarget
  | nonPtr
  | ptrNonMap
  | ptrMapNonStringKey
  | ptrStringMap (zero : GoValue α) (entries : List (String × GoValue α))
deriving DecidableEq, Repr

/-- validateMGetTarget: only a pointer to a string-keyed map is accepted. -/
def validateMGetTarget {α : Type} (target : MGetTarget α) : Except Err Unit :=
  match target with
  | .ptrStringMap _ _ => .ok ()
  | _ => .error .invalidMGetTarget

/-- buildBatchKey: the coalescing key for a batch load, the missing keys
joined with commas in call order behind a `batch:` tag. -/
def buildBatchKey : List String → String
  | [] => "batch:"
  | [k] => "batch:" ++ k
  | k :: rest => "batch:" ++ rest.foldl (fun acc k2 => acc ++ "," ++ k2) k

/-- unmarshalBatch: decode each fetched byte value into a fresh instance
of the element type and assemble the result map. -/
def unmarshalBatch {α : Type} (c : CacheCfg α) (zero : GoValue α) :
    List (String × Bytes) → Except Err (List (String × GoValue α))
  | [] => .ok []
  | (k, b) :: rest =>
    match Unmarshal c b zero with
    | .error e => .error e
    | .ok v => (unmarshalBatch c zero rest).map (fun tail => (k, v) :: tail)

/-- Memory phase of MGet: partition requested keys into non-marker hits
and misses; absence-marker hits are dropped from both. -/
def memPartition (m : MemEntries) : List String → List (String × Bytes) × List String
  | [] => ([], [])
  | k :: rest =>
    let p := memPartition m rest
    match memGet m k with
    | some data =>
      if data == notFoundPlaceholder then p else ((k, data) :: p.1, p.2)
    | none => (p.1, k :: p.2)

/-- Remote phase partition of MGet: split the still-missing keys into
non-marker remote hits and keys remaining unresolved. -/
def remotePartition (redisData : List (String × Bytes)) :
    List String → List (String × Bytes) × List String
  | [] => ([], [])
  | k :: rest =>
    let p := remotePartition redisData rest
    match alookup redisData k with
    | some data =>
      if data == notFoundPlaceholder then p else ((k, data) :: p.1, p.2)
    | none => (p.1, k :: p.2)

/-- Replace-or-append update of an association list (Go map assignment). -/
def aupdate {β : Type} (l : List (String × β)) (key : String) (v : β) : List (String × β) :=
  if (l.find? (fun e => e.1 == key)).isSome
  then l.map (fun e => if e.1 == key then (key, v) else e)
  else l ++ [(key, v)]

/-- Classification loop of batchLoadAndCache: for each requested key,
either stage its serialized value, stage an absence marker, or skip the
absence when absence-caching is off. -/
def classifyBatch {α : Type} (c : CacheCfg α)
    (values : List (String × Option (GoValue α))) (cacheNotFound : Bool) :
    List String → Except Err (List (String × Bytes) × List (String × Bytes))
  | [] => .ok ([], [])
  | k :: rest =>
    match alookup values k with
    | some (some v) =>
      match Marshal c v with
      | .error e => .error e
      | .ok data =>
        (classifyBatch c values cacheNotFound rest).map (fun p => ((k, data) :: p.1, p.2))
    | _ =>
      if !cacheNotFound then classifyBatch c values cacheNotFound rest
      else
        (classifyBatch c values cacheNotFound rest).map
          (fun p => (p.1, (k, notFoundPlaceholder) :: p.2))

/-- Write one class of staged batch values (found values or absence
markers) to both configured tiers at the corresponding resolved TTL. -/
def writeTier {α : Type} (c : CacheCfg α) (config : GetOpts α) (st : CacheState)
    (kvs : List (String × Bytes)) (isNotFound : Bool) : CacheState × Option Err :=
  if kvs.isEmpty then (st, none)
  else
    let ttls := calculateLoaderTTL c config isNotFound
    let st1 : CacheState :=
      { st with memory := st.memory.map (fun m => memMSet m kvs ttls.1) }
    match st1.remote with
    | none => (st1, none)
    | some r =>
      match remoteMSet r kvs ttls.2 with
      | .error e => (st1, some e)
      | .ok r2 => ({ st1 with remote := some r2 }, none)

/-- Core of batchLoadAndCache once the loaded values are in hand. -/
def batchLoadAndCacheCore {α : Type} (c : CacheCfg α) (st : CacheState)
    (keys : List String) (config : GetOpts α)
    (values : List (String × Option (GoValue α))) :
    CacheState × Except Err (List (String × Bytes)) :=
  let cacheNotFound := shouldCacheNotFound c config.cacheNotFound
  match classifyBatch c values cacheNotFound keys with
  | .error e => (st, .error e)
  | .ok staged =>
    match writeTier c config st staged.1 false with
    | (st1, some e) => (st1, .error e)
    | (st1, none) =>
      match writeTier c config st1 staged.2 true with
      | (st2, some e) => (st2, .error e)
      | (st2, none) => (st2, .ok staged.1)

/-- batchLoadAndCache: invoke the batch loader once for the missing keys;
a non-not-found loader error aborts the whole batch. -/
def batchLoadAndCache {α : Type} (c : CacheCfg α) (st : CacheState)
    (keys : List String) (config : GetOpts α)
    (bl : List String → Except Err (List (String × Option (GoValue α)))) :
    CacheState × Except Err (List (String × Bytes)) :=
  match bl keys with
  | .error e =>
    if IsNotFound e then batchLoadAndCacheCore c st keys config []
    else (st, .error e)
  | .ok values => batchLoadAndCacheCore c st keys config values

/-- Batch-loader phase of MGet, entered with the final missing keys. -/
def mgetLoaderPhase {α : Type} (c : CacheCfg α) (st : CacheState)
    (missingKeys : List String) (target : MGetTarget α) (config : GetOpts α)
    (result : List (String × Bytes)) (zero : GoValue α) :
    CacheState × MGetTarget α × Except Err Unit :=
  let afterLoad : Except (CacheState × Err) (CacheState × List (String × Bytes)) :=
    match config.batchLoader with
    | some bl =>
      if missingKeys.isEmpty then .ok (st, result)
      else
        let batchKey := buildBatchKey missingKeys
        let res := batchLoadAndCache c st missingKeys config bl
        let _ := batchKey
        match res.2 with
        | .error e => .error (res.1, e)
        | .ok loaded => .ok (res.1, loaded.foldl (fun acc kv => aupdate acc kv.1 kv.2) result)
    | none => .ok (st, result)
  match afterLoad with
  | .error p => (p.1, target, .error p.2)
  | .ok (st2, result2) =>
    if result2.isEmpty then (st2, target, .ok ())
    else
      match unmarshalBatch c zero result2 with
      | .error e => (st2, target, .error e)
      | .ok decoded => (st2, .ptrStringMap zero decoded, .ok ())

/-- Remote phase of MGet: batch-read the missing keys, add non-marker hits
to the result, write them back into the memory tier in one batch at the
resolved memory TTL, and continue with the final missing set. -/
def mgetRemotePhase {α : Type} (c : CacheCfg α) (st : CacheState)
    (missingKeys : List String) (target : MGetTarget α) (config : GetOpts α)
    (result : List (String × Bytes)) (zero : GoValue α) :
    CacheState × MGetTarget α × Except Err Unit :=
  match st.remote with
  | none => mgetLoaderPhase c st missingKeys target config result zero
  | some r =>
    if missingKeys.isEmpty then mgetLoaderPhase c st missingKeys target config result zero
    else
      match remoteMGet r missingKeys with
      | .error e =>
        if IsNotFound e then mgetLoaderPhase c st missingKeys target config result zero
        else (st, target, .error e)
      | .ok redisData =>
        let p := remotePartition redisData missingKeys
        let st1 : CacheState :=
          if p.1.isEmpty then st
          else
            { st with memory :=
                st.memory.map (fun m => memMSet m p.1 (calculateLoaderTTL c config false).1) }
        mgetLoaderPhase c st1 p.2 target config (result ++ p.1) zero

/-- MGet: validate options; an empty key list is an immediate success; the
target is then validated structurally before any store access; the memory
tier, the remote tier and the batch loader are consulted in turn. -/
def MGet {α : Type} (c : CacheCfg α) (st : CacheState) (keys : List String)
    (target : MGetTarget α) (opts : GetOpts α) :
    CacheState × MGetTarget α × Except Err Unit :=
  match validateGetOptions opts with
  | .error e => (st, target, .error e)
  | .ok _ =>
    if keys.isEmpty then (st, target, .ok ())
    else
      match validateMGetTarget target with
      | .error e => (st, target, .error e)
      | .ok _ =>
        match target with
        | .ptrStringMap zero _ =>
          match st.memory with
          | some m =>
            let p := memPartition m keys
            mgetRemotePhase c st p.2 target opts p.1 zero
          | none => mgetRemotePhase c st keys target opts [] zero
        | _ => (st, target, .error .invalidMGetTarget)

/-- Identifier values accepted by the typed facade's key builder: the Go
type switch distinguishes string, int, int32 and int64; every other
comparable type is rendered by the generic fmt representation, modelled
abstractly by the string it renders to. -/
inductive GoID where
  | str (s : String)
  | i (n : Int)
  | i32 (n : Int)
  | i64 (n : Int)
  | other (rep : String)
deriving DecidableEq, Repr

/-- The key separator of the typed facade. -/
def separator : String := ":"

/-- buildKey: string-builder construction of `keyPrefix + ":" + formatted id`,
mirroring the Go type switch (decimal for the integer cases). -/
def buildKey (keyPre : String) (id : GoID) : String :=
  let b1 := "" ++ keyPre
  let b2 := b1 ++ separator
  match id with
  | .str v => b2 ++ v
  | .i v => b2 ++ toString v
  | .i32 v => b2 ++ toString v
  | .i64 v => b2 ++ toString v
  | .other v => b2 ++ v

/-- Specification-side rendering of an identifier, for comparison with
buildKey: strings verbatim, integers in decimal, the fmt fallback
otherwise. -/
def formatID : GoID → String
  | .str s => s
  | .i n => toString n
  | .i32 n => toString n
  | .i64 n => toString n
  | .other rep => rep

/-! Concrete instances used by the witnesses. -/

/-- A trivial serializer over Unit payloads. -/
def serUnit : GoSerializer Unit := ⟨fun _ => .ok "unit", fun _ => .ok ()⟩

/-- A concrete configuration: defaults 300 / 1000, absence caching off by
default with a 60 default absence TTL. -/
def cfgU : CacheCfg Unit := ⟨serUnit, 300, 1000, false, 60⟩

/-- Both tiers configured and empty, remote writes succeeding. -/
def stBoth : CacheState := ⟨some [], some ⟨[], false⟩⟩

/-! Helper lemmas. -/

theorem memGet_memSet_self (m : MemEntries) (key : String) (data : Bytes) (ttl : Int) :
    memGet (memSet m key data ttl) key = some data := by
  simp [memGet, memSet, List.find?]

theorem foldl_comma_eq_go (rest : List String) : ∀ acc : String,
    rest.foldl (fun a k2 => a ++ "," ++ k2) acc = String.intercalate.go acc "," rest := by
  induction rest with
  | nil => intro acc; rfl
  | cons a as ih => intro acc; simp only [List.foldl, String.intercalate.go]; exact ih (acc ++ "," ++ a)

/-! Theorems settling the claims. -/

/-- Claim C9: MGet with an empty key list returns success immediately,
before the target is structurally validated and without touching any
store, for every target value including structurally invalid ones. -/
theorem C9_mget_empty_keys {α : Type} (c : CacheCfg α) (st : CacheState)
    (target : MGetTarget α) :
    MGet c st [] target newGetOptions = (st, target, .ok ()) := rfl

/-- Claim C8: the typed facade's key builder produces
`keyPrefix ++ ":" ++ formatted id`, with strings rendered verbatim, the
integer identifier cases rendered in decimal, other identifier types
rendered by the generic fallback, and identical (prefix, id) pairs always
yielding the same key. -/
theorem C8_build_key :
    (∀ (p : String) (id : GoID), buildKey p id = p ++ ":" ++ formatID id) ∧
    (∀ s, formatID (.str s) = s) ∧
    (∀ n : Int, formatID (.i n) = toString n) ∧
    (∀ n : Int, formatID (.i32 n) = toString n) ∧
    (∀ n : Int, formatID (.i64 n) = toString n) ∧
    (∀ rep, formatID (.other rep) = rep) ∧
    (∀ p1 p2 id1 id2, p1 = p2 → id1 = id2 → buildKey p1 id1 = buildKey p2 id2) := by
  refine ⟨fun p id => ?_, fun s => rfl, fun n => rfl, fun n => rfl, fun n => rfl, fun rep => rfl,
    fun p1 p2 id1 id2 h1 h2 => by rw [h1, h2]⟩
  cases id <;> rfl

/-- Witness for C8 at concrete inputs. -/
theorem C8_build_key_witness :
    buildKey "user" (GoID.i (-7)) = "user" ++ ":" ++ formatID (GoID.i (-7)) ∧
    buildKey "u" (GoID.str "x") = buildKey "u" (GoID.str "x") :=
  ⟨C8_build_key.1 "user" (GoID.i (-7)),
   C8_build_key.2.2.2.2.2.2 "u" "u" (GoID.str "x") (GoID.str "x") rfl rfl⟩

/-- Claim C4 counterexample: two different orderings of the same key
multiset that yield the same coalescing key, because a key containing the
separator makes the concatenation collide. -/
theorem C4_batch_key_counterexample :
    buildBatchKey ["a", "a,a"] = buildBatchKey ["a,a", "a"] ∧
    (["a", "a,a"] : List String) ≠ ["a,a", "a"] ∧
    (["a", "a,a"] : List String).Perm ["a,a", "a"] := by
  refine ⟨rfl, by decide, ?_⟩
  decide

/-- Claim C4 (amended): the coalescing key is the comma-joined missing-key
list in call order behind a batch tag, so element-wise equal lists always
produce the same key; different orderings of the same keys are not
canonicalized and can produce different keys, but need not always do so. -/
theorem C4_batch_key (keys : List String) :
    buildBatchKey keys = "batch:" ++ String.intercalate "," keys ∧
    (∀ l1 l2 : List String, l1 = l2 → buildBatchKey l1 = buildBatchKey l2) ∧
    buildBatchKey ["a", "b"] ≠ buildBatchKey ["b", "a"] := by
  refine ⟨?_, fun l1 l2 h => by rw [h], by decide⟩
  match keys with
  | [] => rfl
  | [k] => rfl
  | k :: k2 :: rest =>
    show "batch:" ++ (k2 :: rest).foldl (fun a b => a ++ "," ++ b) k = _
    rw [foldl_comma_eq_go]
    rfl

/-- Witness for C4 at concrete inputs. -/
theorem C4_batch_key_witness :
    buildBatchKey ["x", "y"] = "batch:" ++ String.intercalate "," ["x", "y"] ∧
    buildBatchKey ["x", "y"] = buildBatchKey ["x", "y"] :=
  ⟨(C4_batch_key ["x", "y"]).1, (C4_batch_key ["x", "y"]).2.1 ["x", "y"] ["x", "y"] rfl⟩

/-- Claim C5: with the memory tier enabled, a non-positive default memory
TTL fails construction with the memory-TTL error; and any Get or Set call
carrying a non-positive per-call memory TTL override fails with the
memory-TTL error before any store access, for every state (hence every
tier configuration). -/
theorem C5_memory_ttl_validation :
    (∀ cfg : Options, cfg.hasMemoryAdapter = true → cfg.defaultMemoryTTL ≤ 0 →
      validateOptions cfg = .error .invalidMemoryExpireTime) ∧
    (∀ (α : Type) (c : CacheCfg α) (st : CacheState) (key : String) (target : GoValue α)
        (opts : GetOpts α) (t : Int), opts.memoryTTL = some t → t ≤ 0 →
      Get c st key target opts = (st, target, .error .invalidMemoryExpireTime)) ∧
    (∀ (α : Type) (c : CacheCfg α) (st : CacheState) (key : String) (v : GoValue α)
        (opts : SetOpts) (t : Int), opts.memoryTTL = some t → t ≤ 0 →
      Set c st key v opts = (st, .error .invalidMemoryExpireTime)) := by
  refine ⟨fun cfg h1 h2 => ?_, fun α c st key target opts t h1 h2 => ?_,
    fun α c st key v opts t h1 h2 => ?_⟩
  · simp [validateOptions, h1, validMemoryTTL, h2]
  · simp [Get, validateGetOptions, nonPos, h1, h2]
  · simp [Set, validateSetOptions, nonPos, h1, h2]

/-- Witness for C5 at concrete inputs. -/
theorem C5_memory_ttl_validation_witness :
    validateOptions ⟨true, false, 0, 5, false, 5⟩ = .error .invalidMemoryExpireTime ∧
    Get cfgU stBoth "k" (GoValue.str "") ⟨none, none, some (-3), none, none, none⟩
      = (stBoth, GoValue.str "", .error .invalidMemoryExpireTime) ∧
    Set cfgU stBoth "k" (GoValue.str "v") ⟨some 0, none⟩
      = (stBoth, .error .invalidMemoryExpireTime) :=
  ⟨C5_memory_ttl_validation.1 ⟨true, false, 0, 5, false, 5⟩ rfl (by decide),
   C5_memory_ttl_validation.2.1 Unit cfgU stBoth "k" (GoValue.str "")
     ⟨none, none, some (-3), none, none, none⟩ (-3) rfl (by decide),
   C5_memory_ttl_validation.2.2 Unit cfgU stBoth "k" (GoValue.str "v")
     ⟨some 0, none⟩ 0 rfl (by decide)⟩

/-- Claim C6: MGet with a structurally invalid target (nil, non-pointer,
pointer to a non-map, or pointer to a map with non-string keys) and a
non-empty key list fails with the dedicated invalid-target error, leaving
the state and the target untouched. -/
theorem C6_mget_invalid_target {α : Type} (c : CacheCfg α) (st : CacheState)
    (keys : List String) (target : MGetTarget α) (hkeys : keys ≠ [])
    (hbad : target = .nilTarget ∨ target = .nonPtr ∨ target = .ptrNonMap ∨
      target = .ptrMapNonStringKey) :
    MGet c st keys target newGetOptions = (st, target, .error .invalidMGetTarget) := by
  cases keys with
  | nil => exact absurd rfl hkeys
  | cons k rest => rcases hbad with h | h | h | h <;> subst h <;> rfl

/-- Witness for C6 at concrete inputs. -/
theorem C6_mget_invalid_target_witness :
    MGet cfgU stBoth ["k"] MGetTarget.nilTarget newGetOptions
      = (stBoth, MGetTarget.nilTarget, .error .invalidMGetTarget) :=
  C6_mget_invalid_target cfgU stBoth ["k"] MGetTarget.nilTarget (by decide) (Or.inl rfl)

/-- Claim C7: in a Set with both tiers configured, the memory write
precedes the remote write and is not rolled back: when the remote write
fails, the call returns that error with the memory entry in place and the
remote tier unchanged. -/
theorem C7_set_no_rollback {α : Type} (c : CacheCfg α) (m : MemEntries) (r : RemoteState)
    (key : String) (v : GoValue α) (data : Bytes) (opts : SetOpts)
    (h1 : validateSetOptions opts = .ok ())
    (h2 : Marshal c v = .ok data)
    (h3 : r.setFail = true) :
    Set c ⟨some m, some r⟩ key v opts =
      (⟨some (memSet m key data (calculateSetTTL c opts).1), some r⟩, .error .remoteFailure) := by
  simp [Set, h1, h2, remoteSet, h3]

/-- Witness for C7 at concrete inputs. -/
theorem C7_set_no_rollback_witness :
    Set cfgU ⟨some [], some ⟨[], true⟩⟩ "k" (GoValue.str "hi") newSetOptions
      = (⟨some [("k", "hi", 300)], some ⟨[], true⟩⟩, .error .remoteFailure) :=
  C7_set_no_rollback cfgU [] ⟨[], true⟩ "k" (GoValue.str "hi") "hi" newSetOptions rfl rfl rfl

/-- Claim C2: with the memory tier configured but missing the key and the
remote tier returning a value, an absence-marker hit yields not-found with
no memory write, while any other hit is written back into the memory tier
at the resolved memory TTL and decoded into the target with no error. -/
theorem C2_remote_hit_writeback {α : Type} (c : CacheCfg α) (m : MemEntries) (r : RemoteState)
    (key : String) (target : GoValue α) (opts : GetOpts α) (data : Bytes)
    (hv : validateGetOptions opts = .ok ())
    (hmiss : memGet m key = none)
    (hdata : remoteGet r key = .ok data) :
    (data = notFoundPlaceholder →
      Get c ⟨some m, some r⟩ key target opts = (⟨some m, some r⟩, target, .error .notFound)) ∧
    (∀ t2 : GoValue α, data ≠ notFoundPlaceholder → Unmarshal c data target = .ok t2 →
      Get c ⟨some m, some r⟩ key target opts =
        (⟨some (memSet m key data (calculateLoaderTTL c opts false).1), some r⟩, t2, .ok ())) := by
  constructor
  · intro hd
    subst hd
    simp [Get, hv, hmiss, getRemotePhase, hdata]
  · intro t2 hd hu
    have hbe : (data == notFoundPlaceholder) = false := beq_eq_false_iff_ne.mpr hd
    simp [Get, hv, hmiss, getRemotePhase, hdata, hbe, applyUnmarshal, hu]

/-- A concrete state for the C2 witness: empty memory, remote holding a
plain value under `k` and an absence marker under `km`. -/
def stRem : CacheState :=
  ⟨some [], some ⟨[("k", "v1", 9), ("km", notFoundPlaceholder, 9)], false⟩⟩

/-- Witness for C2 at concrete inputs. -/
theorem C2_remote_hit_writeback_witness :
    Get cfgU stRem "k" (GoValue.str "") newGetOptions
      = (⟨some [("k", "v1", 300)], stRem.remote⟩, GoValue.str "v1", .ok ()) ∧
    Get cfgU stRem "km" (GoValue.str "") newGetOptions
      = (stRem, GoValue.str "", .error .notFound) :=
  ⟨(C2_remote_hit_writeback cfgU [] ⟨[("k", "v1", 9), ("km", notFoundPlaceholder, 9)], false⟩
      "k" (GoValue.str "") newGetOptions "v1" rfl rfl rfl).2
      (GoValue.str "v1") (by decide) rfl,
   (C2_remote_hit_writeback cfgU [] ⟨[("k", "v1", 9), ("km", notFoundPlaceholder, 9)], false⟩
      "km" (GoValue.str "") newGetOptions notFoundPlaceholder rfl rfl rfl).1 rfl⟩

/-- Claim C3: in the single-key load path with an absent loader result,
when the resolved absence-caching flag is true the absence marker is
written to every configured tier at the resolved absence TTL (per-call
override if set, else the default) and the call reports not-found; when
the resolved flag is false the call reports not-found with no write. -/
theorem C3_absence_caching {α : Type} (c : CacheCfg α) (st : CacheState) (key : String)
    (opts : GetOpts α) (ldr : String → Except Err (Option (GoValue α)))
    (habs : ldr key = .error .notFound ∨ ldr key = .ok none)
    (hFail : (st.remote.map RemoteState.setFail).getD false = false) :
    (shouldCacheNotFound c opts.cacheNotFound = true →
      loadAndCache c st key opts ldr =
        (⟨st.memory.map (fun m =>
            memSet m key notFoundPlaceholder
              (opts.cacheNotFoundTTL.getD c.defaultCacheNotFoundTTL)),
          st.remote.map (fun r =>
            ⟨memSet r.entries key notFoundPlaceholder
              (opts.cacheNotFoundTTL.getD c.defaultCacheNotFoundTTL), r.setFail⟩)⟩,
         .error .notFound)) ∧
    (shouldCacheNotFound c opts.cacheNotFound = false →
      loadAndCache c st key opts ldr = (st, .error .notFound)) := by
  obtain ⟨mem, rem⟩ := st
  have hl : loadAndCache c ⟨mem, rem⟩ key opts ldr
      = loadAndCacheCore c ⟨mem, rem⟩ key opts (.bytes notFoundPlaceholder) true := by
    rcases habs with h | h <;> simp [loadAndCache, h, IsNotFound]
  rw [hl]
  constructor
  · intro hc
    cases rem with
    | none => simp [loadAndCacheCore, hc, Marshal, calculateLoaderTTL, memSet]
    | some r =>
      have hsf : r.setFail = false := hFail
      simp [loadAndCacheCore, hc, Marshal, calculateLoaderTTL, remoteSet, hsf, memSet]
  · intro hc
    simp [loadAndCacheCore, hc]

/-- Per-call options enabling absence caching with TTL override 42. -/
def optsNF : GetOpts Unit := ⟨none, none, none, none, some true, some 42⟩

/-- Witness for C3 at concrete inputs. -/
theorem C3_absence_caching_witness :
    loadAndCache cfgU stBoth "k" optsNF (fun _ => .ok none)
      = (⟨some [("k", notFoundPlaceholder, 42)], some ⟨[("k", notFoundPlaceholder, 42)], false⟩⟩,
         .error .notFound) ∧
    loadAndCache cfgU stBoth "k" newGetOptions (fun _ => .ok none)
      = (stBoth, .error .notFound) :=
  ⟨(C3_absence_caching cfgU stBoth "k" optsNF (fun _ => .ok none) (Or.inr rfl) rfl).1 rfl,
   (C3_absence_caching cfgU stBoth "k" newGetOptions (fun _ => .ok none) (Or.inr rfl) rfl).2 rfl⟩

/-- Shared helper: Set followed by Get on the same key round-trips the
decoded value whenever at least one tier is configured, the remote tier
(if configured) accepts the write, and the marshalled bytes are not the
absence marker. -/
theorem set_get_ok {α : Type} (c : CacheCfg α) (st : CacheState) (key : String)
    (v target t2 : GoValue α) (data : Bytes)
    (hTier : st.memory.isSome ∨ st.remote.isSome)
    (hFail : (st.remote.map RemoteState.setFail).getD false = false)
    (hM : Marshal c v = .ok data)
    (hnm : data ≠ notFoundPlaceholder)
    (hU : Unmarshal c data target = .ok t2) :
    (Set c st key v newSetOptions).2 = .ok () ∧
    (Get c (Set c st key v newSetOptions).1 key target newGetOptions).2 = (t2, .ok ()) := by
  have hbe : (data == notFoundPlaceholder) = false := beq_eq_false_iff_ne.mpr hnm
  obtain ⟨mem, rem⟩ := st
  cases mem with
  | some m =>
    cases rem with
    | none =>
      constructor
      · simp [Set, newSetOptions, validateSetOptions, nonPos, hM]
      · simp [Set, newSetOptions, validateSetOptions, nonPos, hM, Get, newGetOptions,
          validateGetOptions, memGet_memSet_self, hbe, applyUnmarshal, hU]
    | some r =>
      have hsf : r.setFail = false := hFail
      constructor
      · simp [Set, newSetOptions, validateSetOptions, nonPos, hM, remoteSet, hsf]
      · simp [Set, newSetOptions, validateSetOptions, nonPos, hM, remoteSet, hsf, Get,
          newGetOptions, validateGetOptions, memGet_memSet_self, hbe, applyUnmarshal, hU]
  | none =>
    cases rem with
    | none => simp at hTier
    | some r =>
      have hsf : r.setFail = false := hFail
      constructor
      · simp [Set, newSetOptions, validateSetOptions, nonPos, hM, remoteSet, hsf]
      · simp [Set, newSetOptions, validateSetOptions, nonPos, hM, remoteSet, hsf, Get,
          newGetOptions, validateGetOptions, getRemotePhase, remoteGet, memGet_memSet_self,
          hbe, applyUnmarshal, hU]

/-- Claim C1 (amended): for every tier configuration (memory-only,
remote-only, or both) and every value whose marshalled bytes differ from
the absence marker and decode back into the target, Set followed by Get
on the same key returns that value with no error.  (The original claim,
quantified over all serializable values, fails at a value marshalling to
the absence marker byte sequence.) -/
theorem C1_set_get_roundtrip {α : Type} (c : CacheCfg α) (st : CacheState) (key : String)
    (v target : GoValue α) (data : Bytes)
    (hTier : st.memory.isSome ∨ st.remote.isSome)
    (hFail : (st.remote.map RemoteState.setFail).getD false = false)
    (hM : Marshal c v = .ok data)
    (hnm : data ≠ notFoundPlaceholder)
    (hU : Unmarshal c data target = .ok v) :
    (Set c st key v newSetOptions).2 = .ok () ∧
    (Get c (Set c st key v newSetOptions).1 key target newGetOptions).2 = (v, .ok ()) :=
  set_get_ok c st key v target v data hTier hFail hM hnm hU

/-- Witness for C1 at concrete inputs (both tiers configured). -/
theorem C1_set_get_roundtrip_witness :
    (Set cfgU stBoth "k" (GoValue.str "hi") newSetOptions).2 = .ok () ∧
    (Get cfgU (Set cfgU stBoth "k" (GoValue.str "hi") newSetOptions).1 "k"
        (GoValue.str "") newGetOptions).2 = (GoValue.str "hi", .ok ()) :=
  C1_set_get_roundtrip cfgU stBoth "k" (GoValue.str "hi") (GoValue.str "") "hi"
    (Or.inl rfl) rfl rfl (by decide) rfl

/-- Counterexample to C1 as stated: the string value whose bytes equal the
absence marker is stored successfully but read back as not-found. -/
theorem C1_marker_counterexample :
    (Set cfgU stBoth "k" (GoValue.str "__CACHE_NOT_FOUND__") newSetOptions).2 = .ok () ∧
    (Get cfgU (Set cfgU stBoth "k" (GoValue.str "__CACHE_NOT_FOUND__") newSetOptions).1 "k"
        (GoValue.str "") newGetOptions).2 = (GoValue.str "", .error .notFound) :=
  ⟨rfl, rfl⟩

/-- Claim C10: Unmarshal succeeds immediately on empty bytes leaving the
target untouched, so a key whose stored value is zero-length (for example
after Set with an empty string) reads back with no error and an unchanged
caller-supplied target. -/
theorem C10_unmarshal_empty {α : Type} (c : CacheCfg α) (st : CacheState) (key : String)
    (v target : GoValue α)
    (hTier : st.memory.isSome ∨ st.remote.isSome)
    (hFail : (st.remote.map RemoteState.setFail).getD false = false)
    (hM : Marshal c v = .ok "") :
    (∀ tgt : GoValue α, Unmarshal c "" tgt = .ok tgt) ∧
    (Set c st key v newSetOptions).2 = .ok () ∧
    (Get c (Set c st key v newSetOptions).1 key target newGetOptions).2 = (target, .ok ()) := by
  refine ⟨fun tgt => rfl, ?_⟩
  exact set_get_ok c st key v target target "" hTier hFail hM (by decide) rfl

/-- Witness for C10 at concrete inputs. -/
theorem C10_unmarshal_empty_witness :
    Unmarshal cfgU "" (GoValue.str "t0") = .ok (GoValue.str "t0") ∧
    (Set cfgU stBoth "k" (GoValue.str "") newSetOptions).2 = .ok () ∧
    (Get cfgU (Set cfgU stBoth "k" (GoValue.str "") newSetOptions).1 "k"
        (GoValue.str "t0") newGetOptions).2 = (GoValue.str "t0", .ok ()) :=
  ⟨(C10_unmarshal_empty cfgU stBoth "k" (GoValue.str "") (GoValue.str "t0")
      (Or.inl rfl) rfl rfl).1 (GoValue.str "t0"),
   (C10_unmarshal_empty cfgU stBoth "k" (GoValue.str "") (GoValue.str "t0")
      (Or.inl rfl) rfl rfl).2⟩

end LayeredCache
